import Mathlib

/-! Verification development for the PubMed paper fetcher (`task.py`).

The embedding has two layers:

* a typed layer for the pure string-processing core
  (`filter_non_academic_authors`, `extract_corresponding_email`,
  `parse_paper_details`, `save_to_csv`), over records whose optional
  fields mirror the optional JSON fields the Python code reads with
  `.get`; and
* a dynamic layer for the two network entry points
  (`fetch_pubmed_papers`, `fetch_paper_details`, `main`), where HTTP
  outcomes and JSON values are explicit and Python exceptions are
  modelled with `Except`.

Python `dict`s iterate in insertion order, so JSON objects and the
metadata `result` mapping are modelled as association lists.
-/

/-- Python exceptions distinguished by the code's `except` clauses.
`requestException` covers `requests.exceptions.RequestException` and its
subclasses (transport errors, `raise_for_status` HTTP errors, and — in
requests ≥ 2.27 — `response.json()` decode errors). `attributeError` and
`typeError` are the dynamic-typing errors raised when a JSON value of an
unexpected shape is accessed; none of them is caught by the code. -/
inductive PyErr where
  | requestException
  | attributeError
  | typeError
  | indexError
deriving DecidableEq, Repr

/-- A raw author record: the three fields the code reads, each optional
(`author.get("name", "Unknown")`, `author.get("affiliation", "")`,
`"email" in author` / `author["email"]`). -/
structure Author where
  name : Option String
  affiliation : Option String
  email : Option String
deriving DecidableEq, Repr

/-- One details object of the metadata response: the three fields the
parser reads (`title`, `pubdate`, `authors`), each optional; an absent
author list is read as `[]`. -/
structure Details where
  title : Option String
  pubdate : Option String
  authors : List Author
deriving DecidableEq, Repr

/-- The output row built by `parse_paper_details` (the Python dict
literal of lines 70-77). The field order matches the insertion order of
the dict literal: PubmedID, Title, Publication Date, Non-academic
Author(s), Company Affiliation(s), Corresponding Author Email. -/
structure PaperRecord where
  pubmedId : String
  title : String
  publicationDate : String
  nonAcademicAuthors : String
  companyAffiliations : String
  correspondingEmail : String
deriving DecidableEq, Repr

/-- Boolean test: the character list `pat` occurs as a contiguous block
of `s`. -/
def containsSeq (pat : List Char) : List Char → Bool
  | [] => pat.isPrefixOf []
  | c :: rest => pat.isPrefixOf (c :: rest) || containsSeq pat rest

/-- String-level substring containment. -/
def strContains (s pat : String) : Bool :=
  containsSeq pat.data s.data

/-- Character-by-character lowercasing (`Char.toLower` lowercases the
ASCII range, which is all the keyword match below needs). -/
def lowerStr (s : String) : String :=
  String.mk (s.data.map Char.toLower)

/-- Embedding of `re.search(r'university|college|institute|lab',
affiliation, re.IGNORECASE)`: the regex is an unanchored alternation of
four literal ASCII words, so it matches exactly when the lowercased
affiliation contains one of them as a substring. -/
def matchesAcademic (affiliation : String) : Bool :=
  ["university", "college", "institute", "lab"].any
    (fun kw => strContains (lowerStr affiliation) kw)

/-- The loop condition of `filter_non_academic_authors`, line 87:
`if affiliation and not re.search(...)` where
`affiliation := author.get("affiliation", "")` (an absent field behaves
as the empty string, and an empty string is falsy). -/
def isNonAcademic (author : Author) : Bool :=
  (author.affiliation.getD "" != "") && !matchesAcademic (author.affiliation.getD "")

/-- Embedding of `filter_non_academic_authors` (lines 81-90): one pass
over the author list, appending, for each author passing the
`isNonAcademic` test, `author.get("name", "Unknown")` to the first list
and the affiliation to the second. -/
def filter_non_academic_authors : List Author → List String × List String
  | [] => ([], [])
  | author :: rest =>
    let prev := filter_non_academic_authors rest
    if isNonAcademic author then
      (author.name.getD "Unknown" :: prev.1, author.affiliation.getD "" :: prev.2)
    else
      prev

/-- Embedding of `extract_corresponding_email` (lines 93-98): the email
value of the first author record in which the `email` key is present
(the value may be any string, including the empty one); `none` models
Python's `None` when no author has the key. -/
def extract_corresponding_email : List Author → Option String
  | [] => none
  | author :: rest =>
    match author.email with
    | some e => some e
    | none => extract_corresponding_email rest

/-- Modelled from the spec: the corresponding author is "the first one
listing an email", so the spec-side resolution is the email of the first
author record whose email field is present. This definition follows the
spec's words and is compared against `extract_corresponding_email`. -/
def firstListedEmail (authors : List Author) : Option String :=
  (authors.find? (fun a => a.email.isSome)).bind (fun a => a.email)

/-- Embedding of `corresponding_email or "N/A"` (line 76): Python's `or`
replaces both `None` and the falsy empty string by `"N/A"`. -/
def orNA : Option String → String
  | none => "N/A"
  | some e => if e = "" then "N/A" else e

/-- The loop body of `parse_paper_details` (lines 65-77): one output row
for a single `(paper_id, details)` entry. -/
def mkRow (paper_id : String) (details : Details) : PaperRecord :=
  let authors := details.authors
  let fa := filter_non_academic_authors authors
  { pubmedId := paper_id
    title := details.title.getD "N/A"
    publicationDate := details.pubdate.getD "N/A"
    nonAcademicAuthors := String.intercalate ", " fa.1
    companyAffiliations := String.intercalate ", " fa.2
    correspondingEmail := orNA (extract_corresponding_email authors) }

/-- Embedding of `parse_paper_details` (lines 59-78) on the entries of
the response's `result` mapping, in iteration order: the reserved key
`"uids"` is skipped (`continue`), every other entry yields one row. -/
def parse_paper_details : List (String × Details) → List PaperRecord
  | [] => []
  | (paper_id, details) :: rest =>
    if paper_id = "uids" then parse_paper_details rest
    else mkRow paper_id details :: parse_paper_details rest

/-! CSV layer.

The function `save_to_csv` (lines 101-106) opens the destination, builds a
`csv.DictWriter` with `fieldnames=papers[0].keys()`, writes the header
and then one row per record. Every record dict is built by the same
literal, so its key order is the constant `recordFieldNames`. The
dialect is the csv module's default: comma delimiter, minimal quoting
with `"` as the quote character, quotes doubled inside quoted fields.
The file is modelled as the list of logical CSV rows, each encoded as a
string; `save_to_csv` on the empty list evaluates `papers[0]` and raises
`IndexError` (after the destination has already been opened and
truncated, so no header or row is ever produced). -/

/-- The keys of the row dict literal, in insertion order. -/
def recordFieldNames : List String :=
  ["PubmedID", "Title", "Publication Date", "Non-academic Author(s)",
   "Company Affiliation(s)", "Corresponding Author Email"]

/-- The values of a row, in the same order as `recordFieldNames`. -/
def recordValues (r : PaperRecord) : List String :=
  [r.pubmedId, r.title, r.publicationDate, r.nonAcademicAuthors,
   r.companyAffiliations, r.correspondingEmail]

/-- Double every quote character, as the csv writer does inside a
quoted field. -/
def escQuotes : List Char → List Char
  | [] => []
  | c :: rest =>
    if c = '"' then '"' :: '"' :: escQuotes rest else c :: escQuotes rest

/-- Minimal quoting: a field is quoted exactly when it contains the
delimiter, the quote character, or a line-terminator character. -/
def needsQuoting (s : List Char) : Bool :=
  s.any (fun c => c = ',' || c = '"' || c = '\n' || c = '\r')

/-- Encode one CSV field under minimal quoting. -/
def encField (s : List Char) : List Char :=
  if needsQuoting s then '"' :: (escQuotes s ++ ['"']) else s

/-- Encode a row: fields joined by commas. -/
def encFields : List (List Char) → List Char
  | [] => []
  | [f] => encField f
  | f :: g :: rest => encField f ++ ',' :: encFields (g :: rest)

/-- One encoded CSV row as a string. -/
def csvLine (fields : List String) : String :=
  String.mk (encFields (fields.map String.data))

/-- Standard CSV field scanner (the reading direction of the round-trip
property; reading the file back is not part of the repository, so this
is the csv module's default-dialect reader restricted to one logical
row): a state machine over the characters, tracking whether the scanner
is inside a quoted section, with `""` inside quotes denoting a literal
quote. -/
def scanCsv : Bool → List Char → List (List Char) → List Char → List (List Char)
  | _, cur, acc, [] => acc ++ [cur]
  | true, cur, acc, '"' :: '"' :: rest => scanCsv true (cur ++ ['"']) acc rest
  | true, cur, acc, '"' :: rest => scanCsv false cur acc rest
  | true, cur, acc, c :: rest => scanCsv true (cur ++ [c]) acc rest
  | false, cur, acc, ',' :: rest => scanCsv false [] (acc ++ [cur]) rest
  | false, cur, acc, '"' :: rest => scanCsv true cur acc rest
  | false, cur, acc, c :: rest => scanCsv false (cur ++ [c]) acc rest

/-- Parse one CSV row back into its fields. -/
def parseCsvLine (s : String) : List String :=
  (scanCsv false [] [] s.data).map String.mk

/-- Embedding of `save_to_csv` (lines 101-106): the list of rows written
to the file, or `IndexError` when the record list is empty (from
`papers[0]`, before anything is written). -/
def save_to_csv (papers : List PaperRecord) : Except PyErr (List String) :=
  match papers with
  | [] => .error .indexError
  | _ :: _ =>
    .ok (csvLine recordFieldNames :: papers.map (fun r => csvLine (recordValues r)))

/-! Dynamic layer: JSON values, HTTP outcomes, the two fetchers, `main`.

The fetchers receive whatever the network produces, so their inputs are
modelled dynamically: a JSON value of arbitrary shape, or a transport
failure, or a body that is not valid JSON. Attribute access such as
`data.get(...)` succeeds only on objects (dicts) and raises
`AttributeError` on every other JSON shape, exactly as in Python; these
dynamic errors are not `RequestException`s and are therefore not caught
by either `except` clause in the source. -/

/-- A decoded JSON value (ints stand in for JSON numbers; no claim
involves non-integral numbers). Objects are association lists in
insertion order, as Python dicts iterate. -/
inductive JVal where
  | jnull
  | jbool (b : Bool)
  | jnum (n : Int)
  | jstr (s : String)
  | jarr (xs : List JVal)
  | jobj (kvs : List (String × JVal))

/-- First value bound to a key in a JSON object's association list. -/
def lookupJ (kvs : List (String × JVal)) (k : String) : Option JVal :=
  match kvs with
  | [] => none
  | (k1, v) :: rest => if k1 = k then some v else lookupJ rest k

/-- Python's `value.get(key, default)`: defined on dicts, an
`AttributeError` on every other JSON shape (none of the other decoded
types has a `get` method). -/
def pyGetDefault (v : JVal) (k : String) (dflt : JVal) : Except PyErr JVal :=
  match v with
  | .jobj kvs => .ok ((lookupJ kvs k).getD dflt)
  | _ => .error .attributeError

/-- Python truthiness of a decoded JSON value (used by
`if paper_ids else []`). -/
def jTruthy : JVal → Bool
  | .jnull => false
  | .jbool b => b
  | .jnum n => n != 0
  | .jstr s => s != ""
  | .jarr xs => !xs.isEmpty
  | .jobj kvs => !kvs.isEmpty

/-- View of a JSON value as a Python `str`, for elements of a joined
iterable: any non-string element makes `join` raise `TypeError`. -/
def asStr : JVal → Option String
  | .jstr s => some s
  | _ => none

/-- View of a JSON array's elements as Python `str`s, all of them. -/
def allStrs : List JVal → Option (List String)
  | [] => some []
  | v :: rest =>
    match asStr v, allStrs rest with
    | some s, some ss => some (s :: ss)
    | _, _ => none

/-- Python's `",".join(paper_ids)` (line 45, evaluated before the `try`
block of `fetch_paper_details`): joins an iterable of strings — a list
of strings, a string (iterated character by character), or a dict
(iterated over its keys) — and raises `TypeError` on a non-iterable
value or a non-string element. -/
def pyJoinIds : JVal → Except PyErr String
  | .jarr xs =>
    match allStrs xs with
    | some ss => .ok (String.intercalate "," ss)
    | none => .error .typeError
  | .jstr s => .ok (String.intercalate "," (s.data.map (fun c => String.mk [c])))
  | .jobj kvs => .ok (String.intercalate "," (kvs.map (fun p => p.1)))
  | _ => .error .typeError

/-- Decode one raw author object into the typed `Author` shape the
parsing loop tolerates (each of the three fields absent or a string).
A non-object author, or a non-string field value, makes some later
dynamic operation of the loop raise (`author.get` on a non-dict,
`re.search` on a non-string, `", ".join` over non-strings), so decoding
failure is surfaced below as a dynamic type error. -/
def decodeAuthor : JVal → Option Author
  | .jobj kvs =>
    let fieldStr : String → Option (Option String) := fun k =>
      match lookupJ kvs k with
      | none => some none
      | some (.jstr s) => some (some s)
      | some _ => none
    match fieldStr "name", fieldStr "affiliation", fieldStr "email" with
    | some n, some a, some e => some ⟨n, a, e⟩
    | _, _, _ => none
  | _ => none

/-- Decode one details object into the typed `Details` shape
(`title`/`pubdate` absent or strings, `authors` absent or a list of
well-shaped author objects). -/
def decodeDetails : JVal → Option Details
  | .jobj kvs =>
    let fieldStr : String → Option (Option String) := fun k =>
      match lookupJ kvs k with
      | none => some none
      | some (.jstr s) => some (some s)
      | some _ => none
    let authorsD : Option (List Author) :=
      match lookupJ kvs "authors" with
      | none => some []
      | some (.jarr vs) => vs.mapM decodeAuthor
      | some _ => none
    match fieldStr "title", fieldStr "pubdate", authorsD with
    | some t, some p, some as => some ⟨t, p, as⟩
    | _, _, _ => none
  | _ => none

/-- Dynamic entry into the parser: `data.get("result", {}).items()`
(line 62) requires `data` and its `result` value to be objects, raising
`AttributeError` otherwise; the `"uids"` entry is skipped before its
value is ever read; each remaining entry is decoded to the typed shape
and handed to `parse_paper_details`, a badly-shaped entry standing for
the dynamic type error the loop body would raise on it. -/
def parsePaperDetailsDyn (data : JVal) : Except PyErr (List PaperRecord) :=
  match pyGetDefault data "result" (.jobj []) with
  | .error e => .error e
  | .ok res =>
    match res with
    | .jobj kvs =>
      match (kvs.filter (fun p => p.1 != "uids")).mapM
          (fun p => (decodeDetails p.2).map (fun d => (p.1, d))) with
      | some entries => .ok (parse_paper_details entries)
      | none => .error .typeError
    | _ => .error .attributeError

/-- The body as seen by `response.json()`: either not decodable as JSON
(`JSONDecodeError`, a `RequestException` subclass in requests ≥ 2.27),
or a decoded JSON value. -/
inductive JsonBody where
  | malformed
  | val (v : JVal)

/-- Outcome of one `requests.get` call: a transport failure (the call
itself raises a `RequestException`), or a response carrying a status
code and a body. -/
inductive HttpResult where
  | transportError
  | response (status : Nat) (body : JsonBody)

/-- Model of `response.raise_for_status()`: it raises `HTTPError` (a
`RequestException`) exactly for status codes in [400, 600). -/
def httpErrorStatus (status : Nat) : Prop :=
  400 ≤ status ∧ status < 600

instance (status : Nat) : Decidable (httpErrorStatus status) :=
  inferInstanceAs (Decidable (_ ∧ _))

/-- The `try` block of `fetch_paper_details` (lines 49-56): issue the
batched call, `raise_for_status`, decode the body, parse. -/
def fetchDetailTry (detail : HttpResult) : Except PyErr (List PaperRecord) :=
  match detail with
  | .transportError => .error .requestException
  | .response status body =>
    if httpErrorStatus status then .error .requestException
    else
      match body with
      | .malformed => .error .requestException
      | .val data => parsePaperDetailsDyn data

/-- Embedding of `fetch_paper_details` (lines 41-56): the id join of the
params dict is evaluated first (outside the `try`), then the `try` body
runs with its `except RequestException` clause converting exactly
`RequestException`s to the empty list; every other exception
propagates. -/
def fetch_paper_details (paper_ids : JVal) (detail : HttpResult) :
    Except PyErr (List PaperRecord) :=
  match pyJoinIds paper_ids with
  | .error e => .error e
  | .ok _ =>
    match fetchDetailTry detail with
    | .ok papers => .ok papers
    | .error e => if e = .requestException then .ok [] else .error e

/-- Line 34: `data.get("esearchresult", {}).get("idlist", [])`. -/
def idlistOf (data : JVal) : Except PyErr JVal :=
  match pyGetDefault data "esearchresult" (.jobj []) with
  | .error e => .error e
  | .ok esr => pyGetDefault esr "idlist" (.jarr [])

/-- The `try` block of `fetch_pubmed_papers` (lines 30-38): issue the
search call, `raise_for_status`, decode, extract the id list, and —
still inside the `try` — either short-circuit on an empty (falsy) id
list or call `fetch_paper_details`. -/
def fetchSearchTry (search detail : HttpResult) : Except PyErr (List PaperRecord) :=
  match search with
  | .transportError => .error .requestException
  | .response status body =>
    if httpErrorStatus status then .error .requestException
    else
      match body with
      | .malformed => .error .requestException
      | .val data =>
        match idlistOf data with
        | .error e => .error e
        | .ok paper_ids =>
          if jTruthy paper_ids then fetch_paper_details paper_ids detail
          else .ok []

/-- Embedding of `fetch_pubmed_papers` (lines 21-38): the `try` body,
with the `except RequestException` clause converting exactly
`RequestException`s to the empty list. The query string only shapes the
request parameters, never the control flow, so it is carried as an
unused argument. -/
def fetch_pubmed_papers (query : String) (search detail : HttpResult) :
    Except PyErr (List PaperRecord) :=
  match fetchSearchTry search detail with
  | .ok papers => .ok papers
  | .error e => if e = .requestException then .ok [] else .error e

/-- What `main` produces when it terminates normally: a file written
with the given rows, or the records printed to the console. -/
inductive MainOut where
  | saved (filename : String) (lines : List String)
  | printed (papers : List PaperRecord)
deriving DecidableEq, Repr

/-- Embedding of `main` (lines 109-126) after argument parsing: fetch,
then either save to the given file or print. `main` installs no handler
of its own, so any exception from the stages below escapes it. (Named
`mainFn` because Lean reserves `main` for an `IO` entry point.) -/
def mainFn (query : String) (file : Option String) (search detail : HttpResult) :
    Except PyErr MainOut :=
  match fetch_pubmed_papers query search detail with
  | .error e => .error e
  | .ok papers =>
    match file with
    | some filename =>
      match save_to_csv papers with
      | .error e => .error e
      | .ok lines => .ok (.saved filename lines)
    | none => .ok (.printed papers)

example :
    filter_non_academic_authors
      [⟨some "Jane Doe", some "Pfizer Inc.", some "jane@pfizer.com"⟩,
       ⟨some "John Smith", some "MIT University", none⟩,
       ⟨some "NoAff", none, none⟩]
      = (["Jane Doe"], ["Pfizer Inc."]) := by decide

example :
    parse_paper_details
      [("uids", ⟨none, none, []⟩),
       ("111", ⟨some "Study A", some "2023",
                [⟨some "Jane Doe", some "Pfizer Inc.", some "jane@pfizer.com"⟩]⟩)]
      = [{ pubmedId := "111", title := "Study A", publicationDate := "2023",
           nonAcademicAuthors := "Jane Doe", companyAffiliations := "Pfizer Inc.",
           correspondingEmail := "jane@pfizer.com" }] := by decide

/-! Shared lemmas about the pure core. -/

/-- The accumulation loop of the classifier is the filter of the author
list under the loop condition, projected to names and to affiliations. -/
theorem filter_split (authors : List Author) :
    filter_non_academic_authors authors =
      ((authors.filter isNonAcademic).map (fun a => a.name.getD "Unknown"),
       (authors.filter isNonAcademic).map (fun a => a.affiliation.getD "")) := by
  induction authors with
  | nil => rfl
  | cons a rest ih =>
    simp only [filter_non_academic_authors, List.filter_cons, ih]
    by_cases h : isNonAcademic a
    · simp [h]
    · simp [h]

/-- The parsing loop is the filter of the entry list (dropping `"uids"`)
mapped through the loop body. -/
theorem parse_eq_filterMap (entries : List (String × Details)) :
    parse_paper_details entries
      = (entries.filter (fun e => e.1 != "uids")).map (fun e => mkRow e.1 e.2) := by
  induction entries with
  | nil => rfl
  | cons e rest ih =>
    obtain ⟨paper_id, details⟩ := e
    simp only [parse_paper_details, List.filter_cons]
    by_cases h : paper_id = "uids"
    · simp [h, ih]
    · simp [h, ih]

/-- The extraction loop returns exactly the spec-side first listed
email. -/
theorem extract_eq_firstListed (authors : List Author) :
    extract_corresponding_email authors = firstListedEmail authors := by
  induction authors with
  | nil => rfl
  | cons a rest ih =>
    cases h : a.email with
    | some e => simp [extract_corresponding_email, firstListedEmail, List.find?_cons, h]
    | none => simpa [extract_corresponding_email, firstListedEmail, List.find?_cons, h] using ih

/-! Claim theorems. -/

/-- C1: for every list of author records,
`filter_non_academic_authors` returns two equal-length parallel lists —
the names (defaulting to "Unknown" when the name field is absent) and
affiliations of exactly the authors whose affiliation is non-empty and
fails the case-insensitive academic-keyword match. An author with an
empty or absent affiliation satisfies neither the condition nor appears
in either list, and every output affiliation is non-empty and fails the
keyword match. -/
theorem filter_non_academic_authors_spec (authors : List Author) :
    (filter_non_academic_authors authors).1.length
        = (filter_non_academic_authors authors).2.length ∧
    (filter_non_academic_authors authors).1.zip (filter_non_academic_authors authors).2
        = (authors.filter isNonAcademic).map
            (fun a => (a.name.getD "Unknown", a.affiliation.getD "")) ∧
    (∀ a : Author, isNonAcademic a = true ↔
        (a.affiliation.getD "" ≠ "" ∧ matchesAcademic (a.affiliation.getD "") = false)) ∧
    ∀ aff ∈ (filter_non_academic_authors authors).2,
      aff ≠ "" ∧ matchesAcademic aff = false := by
  have hs := filter_split authors
  have hiff : ∀ a : Author, isNonAcademic a = true ↔
      (a.affiliation.getD "" ≠ "" ∧ matchesAcademic (a.affiliation.getD "") = false) := by
    intro a
    simp [isNonAcademic]
  refine ⟨?_, ?_, hiff, ?_⟩
  · rw [hs]
    simp
  · rw [hs]
    simp [List.zip_map']
  · rw [hs]
    intro aff haff
    simp only [List.mem_map, List.mem_filter] at haff
    obtain ⟨a, ⟨_, hna⟩, rfl⟩ := haff
    exact (hiff a).mp hna

/-- Witness for C1 at a concrete author list: the affiliation listed for
the one non-academic author is non-empty and fails the keyword match. -/
theorem filter_non_academic_authors_spec_witness :
    ("Pfizer Inc." : String) ≠ "" ∧ matchesAcademic "Pfizer Inc." = false :=
  (filter_non_academic_authors_spec
      [⟨some "Jane Doe", some "Pfizer Inc.", some "jane@pfizer.com"⟩,
       ⟨some "John Smith", some "MIT University", none⟩]).2.2.2
    "Pfizer Inc." (by decide)

/-- C2 counterexample: a details response whose first (and only) author
record has the email field present but mapped to the empty string. The
claim says the output field resolves to that author's email (the empty
string), but the record's field is "N/A", which differs from it. -/
theorem corresponding_email_empty_cex :
    extract_corresponding_email [⟨none, none, some ""⟩] = some "" ∧
    (parse_paper_details [("101", ⟨none, none, [⟨none, none, some ""⟩]⟩)]).map
        (fun r => r.correspondingEmail) = ["N/A"] ∧
    ("N/A" : String) ≠ "" :=
  ⟨rfl, rfl, by decide⟩

/-- C2 amended: with zero author emails the field is "N/A"; with at
least one author listing an email, the field is the first listed email
when that email is non-empty, and "N/A" when that email is the empty
string (the code coalesces the falsy empty string). The extraction
function itself returns exactly the first listed email. -/
theorem corresponding_email_resolution (entries : List (String × Details)) :
    (∀ authors : List Author,
        extract_corresponding_email authors = firstListedEmail authors) ∧
    (parse_paper_details entries).map (fun r => r.correspondingEmail)
      = (entries.filter (fun e => e.1 != "uids")).map
          (fun e =>
            match firstListedEmail e.2.authors with
            | none => "N/A"
            | some email => if email = "" then "N/A" else email) := by
  refine ⟨extract_eq_firstListed, ?_⟩
  rw [parse_eq_filterMap, List.map_map]
  have hfun : (fun e : String × Details => (mkRow e.1 e.2).correspondingEmail)
      = fun e : String × Details =>
          match firstListedEmail e.2.authors with
          | none => "N/A"
          | some email => if email = "" then "N/A" else email := by
    funext e
    show orNA (extract_corresponding_email e.2.authors) = _
    rw [extract_eq_firstListed]
    cases firstListedEmail e.2.authors <;> rfl
  rw [show ((fun r : PaperRecord => r.correspondingEmail)
        ∘ fun e : String × Details => mkRow e.1 e.2)
      = fun e : String × Details => (mkRow e.1 e.2).correspondingEmail from rfl, hfun]

/-- C10: when the first author record possessing an email field maps it
to the empty string, the extraction returns that empty string, yet the
produced record's Corresponding Author Email is "N/A": line 76 coalesces
every falsy email value. -/
theorem parse_coalesces_present_empty_email (paper_id : String) (details : Details)
    (h1 : paper_id ≠ "uids")
    (h2 : extract_corresponding_email details.authors = some "") :
    parse_paper_details [(paper_id, details)] = [mkRow paper_id details] ∧
    (mkRow paper_id details).correspondingEmail = "N/A" := by
  constructor
  · simp [parse_paper_details, h1]
  · show orNA (extract_corresponding_email details.authors) = "N/A"
    rw [h2]
    rfl

/-- Witness for C10 at a concrete response: one author whose email field
is present and empty. -/
theorem parse_coalesces_present_empty_email_witness :
    parse_paper_details [("202", ⟨some "T", none, [⟨some "A", none, some ""⟩]⟩)]
        = [mkRow "202" ⟨some "T", none, [⟨some "A", none, some ""⟩]⟩] ∧
    (mkRow "202" ⟨some "T", none, [⟨some "A", none, some ""⟩]⟩).correspondingEmail
        = "N/A" :=
  parse_coalesces_present_empty_email "202"
    ⟨some "T", none, [⟨some "A", none, some ""⟩]⟩ (by decide) rfl

/-- C7: the parser produces exactly one record per entry of the result
mapping other than the reserved `"uids"` key (each record being the loop
body applied to its entry, so every one of the six fields is populated),
and the per-field defaults are: "N/A" for an absent title or publication
date, the empty string for the two author-derived fields of an empty
author list, and "N/A" for its email field. -/
theorem parse_paper_details_shape (entries : List (String × Details)) :
    parse_paper_details entries
        = (entries.filter (fun e => e.1 != "uids")).map (fun e => mkRow e.1 e.2) ∧
    (parse_paper_details entries).length
        = (entries.filter (fun e => e.1 != "uids")).length ∧
    ∀ paper_id details,
      (details.title = none → (mkRow paper_id details).title = "N/A") ∧
      (details.pubdate = none → (mkRow paper_id details).publicationDate = "N/A") ∧
      (details.authors = [] →
        (mkRow paper_id details).nonAcademicAuthors = "" ∧
        (mkRow paper_id details).companyAffiliations = "" ∧
        (mkRow paper_id details).correspondingEmail = "N/A") := by
  refine ⟨parse_eq_filterMap entries, ?_, ?_⟩
  · rw [parse_eq_filterMap entries, List.length_map]
  · intro paper_id details
    refine ⟨fun h => ?_, fun h => ?_, fun h => ?_⟩
    · show details.title.getD "N/A" = "N/A"
      rw [h]
      rfl
    · show details.pubdate.getD "N/A" = "N/A"
      rw [h]
      rfl
    · refine ⟨?_, ?_, ?_⟩
      · show String.intercalate ", " (filter_non_academic_authors details.authors).1 = ""
        rw [h]
        rfl
      · show String.intercalate ", " (filter_non_academic_authors details.authors).2 = ""
        rw [h]
        rfl
      · show orNA (extract_corresponding_email details.authors) = "N/A"
        rw [h]
        rfl

/-- Witness for C7 at concrete inputs: an entry list with a `"uids"` key
and one identifier produces exactly one fully-defaulted record. -/
theorem parse_paper_details_shape_witness :
    (mkRow "111" ⟨none, none, []⟩).title = "N/A" ∧
    (mkRow "111" ⟨none, none, []⟩).publicationDate = "N/A" ∧
    (mkRow "111" ⟨none, none, []⟩).nonAcademicAuthors = "" ∧
    (mkRow "111" ⟨none, none, []⟩).companyAffiliations = "" ∧
    (mkRow "111" ⟨none, none, []⟩).correspondingEmail = "N/A" := by
  have h := (parse_paper_details_shape []).2.2 "111" ⟨none, none, []⟩
  exact ⟨h.1 rfl, h.2.1 rfl, (h.2.2 rfl).1, (h.2.2 rfl).2.1, (h.2.2 rfl).2.2⟩

/-- C5: file mode with an empty record list is a hard stop — the
`IndexError` from `papers[0]` — raised before the header or any row is
produced, so no well-formed output file results (the destination has
merely been truncated). -/
theorem save_to_csv_empty_fails : save_to_csv [] = .error .indexError := rfl

/-! CSV round-trip lemmas: the scanner inverts the encoder on each row. -/

/-- Escaping a quote doubles it. -/
theorem escQuotes_cons_quote (l : List Char) :
    escQuotes ('"' :: l) = '"' :: '"' :: escQuotes l := by
  simp [escQuotes]

/-- Escaping leaves any other character alone. -/
theorem escQuotes_cons_other (c : Char) (l : List Char) (hc : c ≠ '"') :
    escQuotes (c :: l) = c :: escQuotes l := by
  simp [escQuotes, hc]

/-- Decomposition of the quoting test on a cons cell. -/
theorem needsQuoting_cons_false (c : Char) (f : List Char)
    (hf : needsQuoting (c :: f) = false) :
    c ≠ ',' ∧ c ≠ '"' ∧ needsQuoting f = false := by
  refine ⟨?_, ?_, ?_⟩
  · intro h
    subst h
    simp [needsQuoting] at hf
  · intro h
    subst h
    simp [needsQuoting] at hf
  · simp only [needsQuoting, List.any_cons, Bool.or_eq_false_iff] at hf
    exact hf.2

/-- Scanner step: any non-quote character inside a quoted section is
taken literally. -/
theorem scanCsv_true_other (cur : List Char) (acc : List (List Char)) (c : Char)
    (rest : List Char) (hc : c ≠ '"') :
    scanCsv true cur acc (c :: rest) = scanCsv true (cur ++ [c]) acc rest := by
  simp [scanCsv, hc]

/-- Scanner step: an ordinary character outside quotes extends the
current field. -/
theorem scanCsv_false_other (cur : List Char) (acc : List (List Char)) (c : Char)
    (rest : List Char) (hc : c ≠ ',') (hq : c ≠ '"') :
    scanCsv false cur acc (c :: rest) = scanCsv false (cur ++ [c]) acc rest := by
  simp [scanCsv, hc, hq]

/-- Scanner step: a quote followed by a non-quote closes the quoted
section. -/
theorem scanCsv_true_quote_other (cur : List Char) (acc : List (List Char)) (c : Char)
    (rest : List Char) (hc : c ≠ '"') :
    scanCsv true cur acc ('"' :: c :: rest) = scanCsv false cur acc (c :: rest) := by
  simp [scanCsv, hc]

/-- Consuming an escaped field body and its closing quote lands back in
unquoted state with the body appended, provided the closing quote is not
followed by another quote. -/
theorem scan_quoted_esc (f : List Char) (cur : List Char) (acc : List (List Char))
    (rest : List Char) (hr : rest.head? ≠ some '"') :
    scanCsv true cur acc (escQuotes f ++ '"' :: rest) = scanCsv false (cur ++ f) acc rest := by
  induction f generalizing cur with
  | nil =>
    simp only [escQuotes, List.nil_append, List.append_nil]
    cases rest with
    | nil => rfl
    | cons c rest2 =>
      have hc : c ≠ '"' := by
        intro h
        exact hr (by simp [h])
      exact scanCsv_true_quote_other cur acc c rest2 hc
  | cons c f2 ih =>
    by_cases hc : c = '"'
    · subst hc
      rw [escQuotes_cons_quote, List.cons_append, List.cons_append]
      have hstep : scanCsv true cur acc ('"' :: '"' :: (escQuotes f2 ++ '"' :: rest))
          = scanCsv true (cur ++ ['"']) acc (escQuotes f2 ++ '"' :: rest) := rfl
      rw [hstep, ih (cur ++ ['"'])]
      simp
    · rw [escQuotes_cons_other c f2 hc, List.cons_append]
      rw [scanCsv_true_other cur acc c _ hc, ih (cur ++ [c])]
      simp

/-- A field with no special characters, standing at the end of the row,
is consumed literally. -/
theorem scan_plain_end (f : List Char) (hf : needsQuoting f = false) (cur : List Char)
    (acc : List (List Char)) :
    scanCsv false cur acc f = acc ++ [cur ++ f] := by
  induction f generalizing cur with
  | nil => simp [scanCsv]
  | cons c f2 ih =>
    obtain ⟨hc, hq, hrest⟩ := needsQuoting_cons_false c f2 hf
    rw [scanCsv_false_other cur acc c f2 hc hq, ih hrest (cur ++ [c])]
    simp

/-- A field with no special characters, followed by a comma, is consumed
literally and closed. -/
theorem scan_plain_comma (f : List Char) (hf : needsQuoting f = false) (cur : List Char)
    (acc : List (List Char)) (rest : List Char) :
    scanCsv false cur acc (f ++ ',' :: rest) = scanCsv false [] (acc ++ [cur ++ f]) rest := by
  induction f generalizing cur with
  | nil => simp [scanCsv]
  | cons c f2 ih =>
    obtain ⟨hc, hq, hrest⟩ := needsQuoting_cons_false c f2 hf
    rw [List.cons_append, scanCsv_false_other cur acc c _ hc hq, ih hrest (cur ++ [c])]
    simp

/-- An encoded field at the end of the row scans back to itself. -/
theorem scan_encField_end (f : List Char) (acc : List (List Char)) :
    scanCsv false [] acc (encField f) = acc ++ [f] := by
  cases hq : needsQuoting f with
  | true =>
    rw [show encField f = '"' :: (escQuotes f ++ ['"']) from by simp [encField, hq]]
    show scanCsv true [] acc (escQuotes f ++ '"' :: []) = acc ++ [f]
    rw [scan_quoted_esc f [] acc [] (by simp)]
    simp [scanCsv]
  | false =>
    rw [show encField f = f from by simp [encField, hq]]
    rw [scan_plain_end f hq []]
    simp

/-- An encoded field followed by a comma scans back to itself and closes
the field. -/
theorem scan_encField_comma (f : List Char) (acc : List (List Char)) (rest : List Char) :
    scanCsv false [] acc (encField f ++ ',' :: rest) = scanCsv false [] (acc ++ [f]) rest := by
  cases hq : needsQuoting f with
  | true =>
    rw [show encField f = '"' :: (escQuotes f ++ ['"']) from by simp [encField, hq]]
    show scanCsv true [] acc ((escQuotes f ++ ['"']) ++ ',' :: rest)
        = scanCsv false [] (acc ++ [f]) rest
    rw [List.append_assoc]
    show scanCsv true [] acc (escQuotes f ++ '"' :: ',' :: rest)
        = scanCsv false [] (acc ++ [f]) rest
    rw [scan_quoted_esc f [] acc (',' :: rest) (by simp)]
    show scanCsv false [] (acc ++ [[] ++ f]) rest = scanCsv false [] (acc ++ [f]) rest
    simp
  | false =>
    rw [show encField f = f from by simp [encField, hq]]
    rw [scan_plain_comma f hq []]
    simp

/-- The scanner inverts the row encoder on every non-empty field list. -/
theorem scan_encFields (f : List Char) (fs : List (List Char)) (acc : List (List Char)) :
    scanCsv false [] acc (encFields (f :: fs)) = acc ++ f :: fs := by
  induction fs generalizing f acc with
  | nil => exact scan_encField_end f acc
  | cons g rest ih =>
    rw [show encFields (f :: g :: rest) = encField f ++ ',' :: encFields (g :: rest) from rfl]
    rw [scan_encField_comma, ih]
    simp

/-- Rebuilding a string from its character list is the identity. -/
theorem strMk_data (s : String) : String.mk s.data = s := rfl

/-- String-level round trip: parsing an encoded row recovers its
fields. -/
theorem parseCsvLine_csvLine (fields : List String) (h : fields ≠ []) :
    parseCsvLine (csvLine fields) = fields := by
  cases fields with
  | nil => exact absurd rfl h
  | cons f fs =>
    show (scanCsv false [] []
        (String.mk (encFields ((f :: fs).map String.data))).data).map String.mk = f :: fs
    rw [show (String.mk (encFields ((f :: fs).map String.data))).data
          = encFields ((f :: fs).map String.data) from rfl]
    rw [show ((f :: fs).map String.data) = f.data :: fs.map String.data from rfl]
    rw [scan_encFields]
    simp only [List.nil_append, List.map_cons, List.map_map, strMk_data]
    rw [show (String.mk ∘ String.data) = id from funext strMk_data, List.map_id]

/-- C8: for every non-empty record list, file mode writes first a header
row whose columns are exactly the six field names in dict-literal order
(every record is built by the same literal, so the first record's key
order is this constant order), followed by exactly one encoded row per
record. -/
theorem save_to_csv_header_rows (papers : List PaperRecord) (h : papers ≠ []) :
    save_to_csv papers
      = .ok (("PubmedID,Title,Publication Date,Non-academic Author(s),Company Affiliation(s),Corresponding Author Email")
              :: papers.map (fun r => csvLine (recordValues r))) ∧
    (("PubmedID,Title,Publication Date,Non-academic Author(s),Company Affiliation(s),Corresponding Author Email")
        :: papers.map (fun r => csvLine (recordValues r))).length
      = papers.length + 1 := by
  have hh : csvLine recordFieldNames
      = "PubmedID,Title,Publication Date,Non-academic Author(s),Company Affiliation(s),Corresponding Author Email" := by
    decide
  cases papers with
  | nil => exact absurd rfl h
  | cons p rest =>
    constructor
    · show Except.ok (csvLine recordFieldNames :: _) = _
      rw [hh]
    · simp

/-- Witness for C8 at a one-record list. -/
theorem save_to_csv_header_rows_witness :
    save_to_csv [⟨"111", "Study A", "2023", "Jane Doe", "Pfizer Inc.", "jane@pfizer.com"⟩]
      = .ok (("PubmedID,Title,Publication Date,Non-academic Author(s),Company Affiliation(s),Corresponding Author Email")
              :: [(⟨"111", "Study A", "2023", "Jane Doe", "Pfizer Inc.", "jane@pfizer.com"⟩ : PaperRecord)].map
                   (fun r => csvLine (recordValues r))) :=
  (save_to_csv_header_rows
      [⟨"111", "Study A", "2023", "Jane Doe", "Pfizer Inc.", "jane@pfizer.com"⟩]
      (by simp)).1

/-- C9: serializing any non-empty list of records and re-reading the
rows (standard quoting) yields one parsed row per record, with field
values identical to the records' field values. -/
theorem csv_round_trip (papers : List PaperRecord) (h : papers ≠ []) :
    ∃ lines, save_to_csv papers = .ok lines ∧
      lines.length = papers.length + 1 ∧
      lines.tail.map parseCsvLine = papers.map recordValues := by
  cases papers with
  | nil => exact absurd rfl h
  | cons p rest =>
    refine ⟨csvLine recordFieldNames
        :: (p :: rest).map (fun r => csvLine (recordValues r)), rfl, by simp, ?_⟩
    show ((p :: rest).map (fun r => csvLine (recordValues r))).map parseCsvLine
        = (p :: rest).map recordValues
    rw [List.map_map]
    have hfun : (parseCsvLine ∘ fun r => csvLine (recordValues r))
        = fun r : PaperRecord => recordValues r := by
      funext r
      exact parseCsvLine_csvLine (recordValues r) (by simp [recordValues])
    rw [hfun]

/-- Witness for C9 at a one-record list. -/
theorem csv_round_trip_witness :
    ∃ lines,
      save_to_csv [⟨"222", "Ti,tle \"x\"", "2022", "A, B", "C\nD", "e@f"⟩] = .ok lines ∧
      lines.length = 2 ∧
      lines.tail.map parseCsvLine
        = [(⟨"222", "Ti,tle \"x\"", "2022", "A, B", "C\nD", "e@f"⟩ : PaperRecord)].map recordValues :=
  csv_round_trip [⟨"222", "Ti,tle \"x\"", "2022", "A, B", "C\nD", "e@f"⟩] (by simp)

/-! Lemmas and claim theorems for the network layer. -/

/-- Joining a well-formed identifier list (all elements strings)
succeeds. -/
theorem allStrs_jstr (ids : List String) :
    allStrs (ids.map JVal.jstr) = some ids := by
  induction ids with
  | nil => rfl
  | cons a l ih => simp [allStrs, asStr, ih]

/-- C6: for every query whose search response (any non-error status,
any decoded body) carries an empty identifier list, `fetch_pubmed_papers`
returns the empty list for every possible detail-call outcome — the
universally quantified `detail` shows the Detail Fetcher is never
consulted. -/
theorem empty_idlist_short_circuit (query : String) (status : Nat) (data : JVal)
    (detail : HttpResult) (h1 : ¬ httpErrorStatus status)
    (h2 : idlistOf data = .ok (.jarr [])) :
    fetch_pubmed_papers query (.response status (.val data)) detail = .ok [] := by
  have ht : fetchSearchTry (.response status (.val data)) detail = .ok [] := by
    simp only [fetchSearchTry, if_neg h1, h2]
    rfl
  simp [fetch_pubmed_papers, ht]

/-- Witness for C6 at a concrete empty-idlist search response, with a
transport-failing detail call that is never reached. -/
theorem empty_idlist_short_circuit_witness :
    fetch_pubmed_papers "cancer"
        (.response 200 (.val (.jobj [("esearchresult", .jobj [("idlist", .jarr [])])])))
        .transportError = .ok [] :=
  empty_idlist_short_circuit "cancer" 200
    (.jobj [("esearchresult", .jobj [("idlist", .jarr [])])])
    .transportError (by decide) rfl

/-- C4 counterexample: a syntactically valid JSON body of unexpected
shape (a top-level array) makes `data.get(...)` raise `AttributeError`,
which neither `except RequestException` clause catches — in both
fetchers the failure propagates as an exception instead of becoming an
empty list. -/
theorem fetch_shape_error_cex :
    fetch_pubmed_papers "cancer" (.response 200 (.val (.jarr [])))
        (.response 200 (.val (.jobj []))) = .error .attributeError ∧
    fetch_paper_details (.jarr [.jstr "111"]) (.response 200 (.val (.jarr [])))
        = .error .attributeError :=
  ⟨rfl, rfl⟩

/-- C4 amended: for both network calls, transport failures, non-success
HTTP statuses, and undecodable (malformed) JSON bodies are caught at the
call site and become the empty list, with no retry (the model issues
each call once); but a decodable body of unexpected shape raises a
dynamic type error (`AttributeError`) that propagates out of the
fetcher. -/
theorem fetch_error_absorption :
    (∀ query detail, fetch_pubmed_papers query .transportError detail = .ok []) ∧
    (∀ query detail status body, httpErrorStatus status →
        fetch_pubmed_papers query (.response status body) detail = .ok []) ∧
    (∀ query detail status,
        fetch_pubmed_papers query (.response status .malformed) detail = .ok []) ∧
    (∀ query detail status, ¬ httpErrorStatus status →
        fetch_pubmed_papers query (.response status (.val (.jarr []))) detail
          = .error .attributeError) ∧
    (∀ ids : List String,
        fetch_paper_details (.jarr (ids.map JVal.jstr)) .transportError = .ok []) ∧
    (∀ ids : List String, ∀ status body, httpErrorStatus status →
        fetch_paper_details (.jarr (ids.map JVal.jstr)) (.response status body) = .ok []) ∧
    (∀ ids : List String, ∀ status,
        fetch_paper_details (.jarr (ids.map JVal.jstr)) (.response status .malformed)
          = .ok []) ∧
    (∀ ids : List String, ∀ status, ¬ httpErrorStatus status →
        fetch_paper_details (.jarr (ids.map JVal.jstr)) (.response status (.val (.jarr [])))
          = .error .attributeError) := by
  have hjoin : ∀ ids : List String,
      pyJoinIds (.jarr (ids.map JVal.jstr)) = .ok (String.intercalate "," ids) := by
    intro ids
    simp [pyJoinIds, allStrs_jstr]
  refine ⟨?_, ?_, ?_, ?_, ?_, ?_, ?_, ?_⟩
  · intro query detail
    rfl
  · intro query detail status body h
    have ht : fetchSearchTry (.response status body) detail = .error .requestException := by
      simp only [fetchSearchTry, if_pos h]
    simp [fetch_pubmed_papers, ht]
  · intro query detail status
    have ht : fetchSearchTry (.response status .malformed) detail
        = .error .requestException := by
      simp only [fetchSearchTry]
      by_cases h : httpErrorStatus status
      · rw [if_pos h]
      · rw [if_neg h]
    simp [fetch_pubmed_papers, ht]
  · intro query detail status h
    have ht : fetchSearchTry (.response status (.val (.jarr []))) detail
        = .error .attributeError := by
      simp only [fetchSearchTry, if_neg h]
      rfl
    simp [fetch_pubmed_papers, ht]
  · intro ids
    simp [fetch_paper_details, hjoin ids, fetchDetailTry]
  · intro ids status body h
    have ht : fetchDetailTry (.response status body) = .error .requestException := by
      simp only [fetchDetailTry, if_pos h]
    simp [fetch_paper_details, hjoin ids, ht]
  · intro ids status
    have ht : fetchDetailTry (.response status .malformed) = .error .requestException := by
      simp only [fetchDetailTry]
      by_cases h : httpErrorStatus status
      · rw [if_pos h]
      · rw [if_neg h]
    simp [fetch_paper_details, hjoin ids, ht]
  · intro ids status h
    have ht : fetchDetailTry (.response status (.val (.jarr []))) = .error .attributeError := by
      simp only [fetchDetailTry, if_neg h]
      rfl
    simp [fetch_paper_details, hjoin ids, ht]

/-- Witness for C4 (amended) at concrete inputs: an HTTP 500 search
response is absorbed to the empty list. -/
theorem fetch_error_absorption_witness :
    fetch_pubmed_papers "cancer" (.response 500 (.val (.jobj []))) .transportError
      = .ok [] :=
  fetch_error_absorption.2.1 "cancer" .transportError 500 (.val (.jobj [])) (by decide)

/-- C3 counterexample: with a file destination supplied and the search
call returning HTTP 500, the empty record list reaches `save_to_csv`,
whose `papers[0]` raises an `IndexError` that escapes `main` — an
exception does escape, contrary to the claim's "regardless of whether a
file destination is supplied". -/
theorem main_http500_file_cex :
    mainFn "cancer" (some "out.csv") (.response 500 (.val (.jobj [])))
        (.response 200 (.val (.jobj []))) = .error .indexError :=
  rfl

/-- C3 amended: when the search call returns a non-success HTTP status,
the fetched record list is empty; in console mode (no file destination)
`main` finishes normally printing nothing, while in file mode the empty
list makes `save_to_csv` raise an `IndexError` that escapes `main`. -/
theorem main_http_error_behavior (query filename : String) (status : Nat)
    (body : JsonBody) (detail : HttpResult) (h : httpErrorStatus status) :
    fetch_pubmed_papers query (.response status body) detail = .ok [] ∧
    mainFn query none (.response status body) detail = .ok (.printed []) ∧
    mainFn query (some filename) (.response status body) detail = .error .indexError := by
  have ht : fetchSearchTry (.response status body) detail = .error .requestException := by
    simp only [fetchSearchTry, if_pos h]
  have hf : fetch_pubmed_papers query (.response status body) detail = .ok [] := by
    simp [fetch_pubmed_papers, ht]
  refine ⟨hf, ?_, ?_⟩
  · simp [mainFn, hf]
  · simp [mainFn, hf, save_to_csv]

/-- Witness for C3 (amended) at concrete inputs: HTTP 500 search, no
file destination, console mode completes with an empty printout. -/
theorem main_http_error_behavior_witness :
    mainFn "cancer" none (.response 500 .malformed) .transportError
      = .ok (.printed []) :=
  (main_http_error_behavior "cancer" "out.csv" 500 .malformed .transportError
    (by decide)).2.1
